import Mathlib

/-!
Verification development for the dtkai client library: a shallow embedding of
the capability-client classes (DOCRRecognition, DImageRecognition,
DChatCompletions, DFunctionCalling, DSpeechToText, DTextToSpeech) and proofs
about their observable behavior.

The daemon, the bus transport and the Qt runtime are external collaborators:
remote-call replies and file-system facts enter the model as explicit
environment inputs, and the Qt JSON document type is modelled by the JValue
inductive below together with an executable serializer and parser.
-/

set_option autoImplicit false

namespace DtkAi

/-- Model of a Qt JSON value (QJsonValue / JSON-representable QVariant).
Numbers are modelled as integers: every numeric field the library reads or
writes (error codes) is integral, and no claim touches fractional values. -/
inductive JValue where
  | null
  | jbool (b : Bool)
  | jnum (n : Int)
  | jstr (s : String)
  | jarr (elems : List JValue)
  | jobj (fields : List (String × JValue))
deriving Repr

/-- QVariantHash / QJsonObject insertion: overwrite an existing key in place,
otherwise append the pair at the end. -/
def hashInsert : List (String × JValue) → String → JValue → List (String × JValue)
  | [], k, v => [(k, v)]
  | (k0, v0) :: rest, k, v =>
      if k0 = k then (k, v) :: rest else (k0, v0) :: hashInsert rest k v

/-- QVariantHash / QJsonObject lookup: value stored under a key, if any. -/
def hashGet? : List (String × JValue) → String → Option JValue
  | [], _ => none
  | (k0, v0) :: rest, k => if k0 = k then some v0 else hashGet? rest k

/-- QVariantHash::contains / QJsonObject::contains. -/
def hashContains (m : List (String × JValue)) (k : String) : Bool :=
  (hashGet? m k).isSome

/-- Model of QVariant::toString on a looked-up value: strings pass through,
numbers and booleans are stringified, anything else (absent key, null,
containers) yields the empty string. -/
def variantToString : Option JValue → String
  | some (JValue.jstr s) => s
  | some (JValue.jnum n) => toString n
  | some (JValue.jbool b) => if b then "true" else "false"
  | _ => ""

/-- Model of QVariant::toInt on a looked-up value: numbers pass through,
booleans map to 1/0, numeric strings are parsed, anything else yields 0. -/
def variantToInt : Option JValue → Int
  | some (JValue.jnum n) => n
  | some (JValue.jbool b) => if b then 1 else 0
  | some (JValue.jstr s) => (s.toInt?).getD 0
  | _ => 0

/-- Model of QVariant::value with target QVariantHash: a map value passes
through as its field list, anything else yields the empty hash. -/
def variantToHash : Option JValue → List (String × JValue)
  | some (JValue.jobj fields) => fields
  | _ => []

/-- Model of QJsonValue::toString: only an actual JSON string converts,
everything else yields the empty string. -/
def jsonValueToString : Option JValue → String
  | some (JValue.jstr s) => s
  | _ => ""

/-- Model of QJsonValue::toBool: only an actual JSON boolean converts,
everything else yields false. -/
def jsonValueToBool : Option JValue → Bool
  | some (JValue.jbool b) => b
  | _ => false

/-- Model of QJsonValue::toInt: only an actual JSON number converts,
everything else yields 0. -/
def jsonValueToInt : Option JValue → Int
  | some (JValue.jnum n) => n
  | _ => 0

/-! ### Punctuation characters, named to keep string literals free of braces -/

def lbraceChar : Char := Char.ofNat 123

def rbraceChar : Char := Char.ofNat 125

def lbrackChar : Char := Char.ofNat 91

def rbrackChar : Char := Char.ofNat 93

def quoteChar : Char := Char.ofNat 34

def backslashChar : Char := Char.ofNat 92

def commaChar : Char := Char.ofNat 44

def colonChar : Char := Char.ofNat 58

def minusChar : Char := Char.ofNat 45

def slashChar : Char := Char.ofNat 47

/-! ### Serializer: model of QJsonDocument::toJson(QJsonDocument::Compact)

QJsonObject stores its keys in sorted order, so Qt serializes object fields
in key order; no claim in this development depends on the field order of a
serialized object, so the model emits fields in construction order. -/

/-- Escape one character for a JSON string literal (quote, backslash and the
control characters that Qt escapes with a short form). -/
def escapeJsonChar (c : Char) : List Char :=
  if c = quoteChar then [backslashChar, quoteChar]
  else if c = backslashChar then [backslashChar, backslashChar]
  else if c = Char.ofNat 10 then [backslashChar, 'n']
  else if c = Char.ofNat 9 then [backslashChar, 't']
  else if c = Char.ofNat 13 then [backslashChar, 'r']
  else if c = Char.ofNat 8 then [backslashChar, 'b']
  else if c = Char.ofNat 12 then [backslashChar, 'f']
  else [c]

/-- Serialize a string to a quoted JSON string literal. -/
def stringToJson (s : String) : String :=
  String.mk ([quoteChar] ++ s.toList.flatMap escapeJsonChar ++ [quoteChar])

mutual

/-- Compact JSON serialization of a value. -/
def jsonToString : JValue → String
  | JValue.null => "null"
  | JValue.jbool b => if b then "true" else "false"
  | JValue.jnum n => toString n
  | JValue.jstr s => stringToJson s
  | JValue.jarr elems =>
      String.singleton lbrackChar ++ jsonElemsToString elems ++ String.singleton rbrackChar
  | JValue.jobj fields =>
      String.singleton lbraceChar ++ jsonFieldsToString fields ++ String.singleton rbraceChar

/-- Comma-separated serialization of array elements. -/
def jsonElemsToString : List JValue → String
  | [] => ""
  | [e] => jsonToString e
  | e :: rest => jsonToString e ++ String.singleton commaChar ++ jsonElemsToString rest

/-- Comma-separated serialization of object fields. -/
def jsonFieldsToString : List (String × JValue) → String
  | [] => ""
  | [(k, v)] => stringToJson k ++ String.singleton colonChar ++ jsonToString v
  | (k, v) :: rest =>
      stringToJson k ++ String.singleton colonChar ++ jsonToString v ++
        String.singleton commaChar ++ jsonFieldsToString rest

end

/-! ### Parser: model of QJsonDocument::fromJson

The model covers the JSON forms the library and its daemon exchange: objects,
arrays, strings with the short escape forms, integral numbers, and the three
literals. Fractional numbers and unicode escapes are outside the model and
make the parse fail. A parse keeps the last value of a duplicated object key,
as Qt does. -/

/-- Whitespace as accepted between JSON tokens. -/
def isJsonWs (c : Char) : Bool :=
  c = ' ' || c = Char.ofNat 10 || c = Char.ofNat 9 || c = Char.ofNat 13

/-- Drop leading whitespace. -/
def skipWs : List Char → List Char
  | [] => []
  | c :: rest => if isJsonWs c then skipWs rest else c :: rest

/-- Translate a short escape code to the character it denotes. -/
def unescapeChar (c : Char) : Option Char :=
  if c = quoteChar then some quoteChar
  else if c = backslashChar then some backslashChar
  else if c = slashChar then some slashChar
  else if c = 'n' then some (Char.ofNat 10)
  else if c = 't' then some (Char.ofNat 9)
  else if c = 'r' then some (Char.ofNat 13)
  else if c = 'b' then some (Char.ofNat 8)
  else if c = 'f' then some (Char.ofNat 12)
  else none

/-- Parse the body of a JSON string literal after the opening quote; returns
the decoded characters and the input remaining after the closing quote. -/
def parseStrBody : List Char → Option (List Char × List Char)
  | [] => none
  | c :: rest =>
      if c = quoteChar then some ([], rest)
      else if c = backslashChar then
        match rest with
        | [] => none
        | e :: rest2 =>
            match unescapeChar e with
            | none => none
            | some dc =>
                match parseStrBody rest2 with
                | none => none
                | some (cs, rem) => some (dc :: cs, rem)
      else
        match parseStrBody rest with
        | none => none
        | some (cs, rem) => some (c :: cs, rem)

/-- Split a maximal run of leading decimal digits. -/
def takeDigits : List Char → List Char × List Char
  | [] => ([], [])
  | c :: rest =>
      if c.isDigit then
        let (ds, rem) := takeDigits rest
        (c :: ds, rem)
      else ([], c :: rest)

/-- Decimal digits to a natural number. -/
def digitsToNat (ds : List Char) : Nat :=
  ds.foldl (fun n c => n * 10 + (c.toNat - 48)) 0

mutual

/-- Parse one JSON value; fuel bounds the recursion and one unit is spent per
consumed structural token, so input length plus one always suffices. -/
def parseValue : Nat → List Char → Option (JValue × List Char)
  | 0, _ => none
  | fuel + 1, input =>
      match skipWs input with
      | [] => none
      | c :: rest =>
          if c = lbraceChar then
            match skipWs rest with
            | [] => none
            | c2 :: rest2 =>
                if c2 = rbraceChar then some (JValue.jobj [], rest2)
                else parseMembers fuel (c2 :: rest2) []
          else if c = lbrackChar then
            match skipWs rest with
            | [] => none
            | c2 :: rest2 =>
                if c2 = rbrackChar then some (JValue.jarr [], rest2)
                else parseElems fuel (c2 :: rest2) []
          else if c = quoteChar then
            match parseStrBody rest with
            | none => none
            | some (cs, rem) => some (JValue.jstr (String.mk cs), rem)
          else if c = 't' then
            match rest with
            | 'r' :: 'u' :: 'e' :: rem => some (JValue.jbool true, rem)
            | _ => none
          else if c = 'f' then
            match rest with
            | 'a' :: 'l' :: 's' :: 'e' :: rem => some (JValue.jbool false, rem)
            | _ => none
          else if c = 'n' then
            match rest with
            | 'u' :: 'l' :: 'l' :: rem => some (JValue.null, rem)
            | _ => none
          else if c = minusChar then
            match takeDigits rest with
            | ([], _) => none
            | (ds, rem) => some (JValue.jnum (-(digitsToNat ds : Int)), rem)
          else if c.isDigit then
            match takeDigits (c :: rest) with
            | ([], _) => none
            | (ds, rem) => some (JValue.jnum (digitsToNat ds : Int), rem)
          else none

/-- Parse object members from the first key onward, accumulating with
last-wins insertion; consumes the closing brace. -/
def parseMembers : Nat → List Char → List (String × JValue) →
    Option (JValue × List Char)
  | 0, _, _ => none
  | fuel + 1, input, acc =>
      match skipWs input with
      | [] => none
      | c :: rest =>
          if c = quoteChar then
            match parseStrBody rest with
            | none => none
            | some (keyChars, rest2) =>
                match skipWs rest2 with
                | [] => none
                | c2 :: rest3 =>
                    if c2 = colonChar then
                      match parseValue fuel rest3 with
                      | none => none
                      | some (v, rest4) =>
                          let acc2 := hashInsert acc (String.mk keyChars) v
                          match skipWs rest4 with
                          | [] => none
                          | c3 :: rest5 =>
                              if c3 = commaChar then parseMembers fuel rest5 acc2
                              else if c3 = rbraceChar then some (JValue.jobj acc2, rest5)
                              else none
                    else none
          else none

/-- Parse array elements from the first element onward; consumes the closing
bracket. -/
def parseElems : Nat → List Char → List JValue → Option (JValue × List Char)
  | 0, _, _ => none
  | fuel + 1, input, acc =>
      match parseValue fuel input with
      | none => none
      | some (v, rest) =>
          let acc2 := acc ++ [v]
          match skipWs rest with
          | [] => none
          | c :: rest2 =>
              if c = commaChar then parseElems fuel rest2 acc2
              else if c = rbrackChar then some (JValue.jarr acc2, rest2)
              else none

end

/-- Model of QJsonDocument::fromJson: parse the whole input as one JSON value,
with nothing but whitespace after it. -/
def fromJson? (s : String) : Option JValue :=
  let cs := s.toList
  match parseValue (cs.length + 1) cs with
  | some (v, rest) => if skipWs rest = [] then some v else none
  | none => none

/-- Model of the idiom QJsonDocument::fromJson(s).object().toVariantHash():
the fields of the parsed object, or the empty hash when the input is not a
JSON object (parse failure, array root, scalar root). -/
def docObject (s : String) : List (String × JValue) :=
  match fromJson? s with
  | some (JValue.jobj fields) => fields
  | _ => []

/-! ### Base64: model of QByteArray::fromBase64

Qt ignores characters outside the base64 alphabet (including padding) and
decodes the remaining 6-bit groups; a trailing group of one character yields
no byte. Bytes are modelled as naturals below 256. -/

/-- Value of one base64 alphabet character. -/
def b64Val (c : Char) : Option Nat :=
  if 'A' ≤ c ∧ c ≤ 'Z' then some (c.toNat - 65)
  else if 'a' ≤ c ∧ c ≤ 'z' then some (c.toNat - 97 + 26)
  else if '0' ≤ c ∧ c ≤ '9' then some (c.toNat - 48 + 52)
  else if c = '+' then some 62
  else if c = slashChar then some 63
  else none

/-- Decode a list of 6-bit values into bytes, three per full group of four. -/
def b64Decode : List Nat → List Nat
  | a :: b :: c :: d :: rest =>
      (a * 4 + b / 16) :: ((b % 16) * 16 + c / 4) :: ((c % 4) * 64 + d) :: b64Decode rest
  | [a, b] => [a * 4 + b / 16]
  | [a, b, c] => [a * 4 + b / 16, (b % 16) * 16 + c / 4]
  | _ => []

/-- Model of QByteArray::fromBase64 applied to the UTF-8 bytes of a string. -/
def fromBase64 (s : String) : List Nat :=
  b64Decode (s.toList.filterMap b64Val)

/-! ### Error state: DError and the AIErrorCode enumeration -/

/-- Model of the (code, message) error object held by every client. -/
structure DError where
  code : Int
  message : String
deriving Repr, DecidableEq

/-- AIErrorCode::NoError. -/
def NoError : Int := 0

/-- AIErrorCode::APIServerNotAvailable. -/
def APIServerNotAvailable : Int := 1

/-- AIErrorCode::InvalidParameter. -/
def InvalidParameter : Int := 2

/-- AIErrorCode::ParseError. -/
def ParseError : Int := 3

/-- Placeholder for the human-readable text of QJsonParseError::errorString();
no claim inspects this message. -/
def parseErrorText : String := "invalid JSON"

/-! ### Session establishment

Every client class carries an identical ensureServer method, differing only in
the capability name passed to CreateSession and in the signal wiring; the
remote side is modelled by the environment record below. -/

/-- Environment of one ensureServer call: whether the held proxy is already
non-null and valid, whether the session-manager endpoint is reachable, and the
handle CreateSession would return (empty string = failure). -/
structure SessionEnv where
  ifsValid : Bool
  smValid : Bool
  newSessionId : String
deriving Repr, DecidableEq

/-- Model of the ensureServer bodies of DOCRRecognitionPrivate,
DImageRecognitionPrivate, DChatCompletionsPrivate, DFunctionCallingPrivate,
DSpeechToTextPrivate and DTextToSpeechPrivate. Returns the success flag the
method returns, paired with whether a CreateSession remote call was issued to
the session manager (the instrumentation the no-remote-call claims need). -/
def ensureServer (env : SessionEnv) : Bool × Bool :=
  if env.ifsValid then (true, false)
  else if !env.smValid then (false, false)
  else if env.newSessionId = "" then (false, true)
  else (true, true)

/-- Remote-interaction record of one operation: whether CreateSession was
issued, and whether the capability-specific remote call was issued. -/
structure CallLog where
  createSessionCalled : Bool
  remoteCalled : Bool
deriving Repr, DecidableEq

/-! ## DOCRRecognition (src/src/vision/docrrecognition.cpp) -/

namespace DOCRRecognition

/-- Mutable per-instance state of a DOCRRecognition: the running flag and the
error object. -/
structure State where
  running : Bool
  error : DError
deriving Repr, DecidableEq

/-- DOCRRecognition::recognizeFile. Arguments beyond the state: the session
environment, the file path, and the string the remote recognizeFile call
would return. Output: final state, returned string, remote-call log. -/
def recognizeFile (st : State) (env : SessionEnv) (imageFile : String)
    (reply : String) : State × String × CallLog :=
  let es := ensureServer env
  if !es.1 then
    ({ st with error := ⟨APIServerNotAvailable, ""⟩ }, "", ⟨es.2, false⟩)
  else if imageFile = "" then
    ({ st with error := ⟨InvalidParameter, "Empty image file path"⟩ }, "", ⟨es.2, false⟩)
  else
    match fromJson? reply with
    | none =>
        ({ running := false, error := ⟨ParseError, parseErrorText⟩ }, "", ⟨es.2, true⟩)
    | some v =>
        let obj := match v with | JValue.jobj fields => fields | _ => []
        if hashContains obj "error" && jsonValueToBool (hashGet? obj "error") then
          ({ running := false,
             error := ⟨jsonValueToInt (hashGet? obj "error_code"),
                       jsonValueToString (hashGet? obj "error_message")⟩ }, "", ⟨es.2, true⟩)
        else
          ({ running := false, error := ⟨NoError, ""⟩ },
           jsonValueToString (hashGet? obj "text"), ⟨es.2, true⟩)

/-- DOCRRecognition::recognizeRegionFromString; same shape as recognizeFile
with an additional region argument that is validated for non-emptiness. -/
def recognizeRegionFromString (st : State) (env : SessionEnv) (imageFile : String)
    (region : String) (reply : String) : State × String × CallLog :=
  let es := ensureServer env
  if !es.1 then
    ({ st with error := ⟨APIServerNotAvailable, ""⟩ }, "", ⟨es.2, false⟩)
  else if imageFile = "" then
    ({ st with error := ⟨InvalidParameter, "Empty image file path"⟩ }, "", ⟨es.2, false⟩)
  else if region = "" then
    ({ st with error := ⟨InvalidParameter, "Empty region"⟩ }, "", ⟨es.2, false⟩)
  else
    match fromJson? reply with
    | none =>
        ({ running := false, error := ⟨ParseError, parseErrorText⟩ }, "", ⟨es.2, true⟩)
    | some v =>
        let obj := match v with | JValue.jobj fields => fields | _ => []
        if hashContains obj "error" && jsonValueToBool (hashGet? obj "error") then
          ({ running := false,
             error := ⟨jsonValueToInt (hashGet? obj "error_code"),
                       jsonValueToString (hashGet? obj "error_message")⟩ }, "", ⟨es.2, true⟩)
        else
          ({ running := false, error := ⟨NoError, ""⟩ },
           jsonValueToString (hashGet? obj "text"), ⟨es.2, true⟩)

/-- DOCRRecognition::terminate: forwards a stop request when a proxy object is
held and unconditionally clears the running flag. -/
def terminate (st : State) (hasIfs : Bool) : State × Bool :=
  ({ st with running := false }, hasIfs)

end DOCRRecognition

/-! ## DImageRecognition (src/unnamed/part_001) -/

namespace DImageRecognition

/-- Mutable per-instance state of a DImageRecognition. -/
structure State where
  running : Bool
  error : DError
deriving Repr, DecidableEq

/-- File-system environment: the set of existing files, as QFileInfo::exists
would report them. -/
structure FsEnv where
  existingFiles : List String
deriving Repr, DecidableEq

/-- Model of QFileInfo::isAbsolute on a Unix path: the path starts with a
slash. -/
def isAbsolutePath (s : String) : Bool :=
  match s.toList with
  | c :: _ => c = slashChar
  | [] => false

/-- DImageRecognition::recognizeImage. Output: final state, returned string,
remote-call log. The path security check sits after ensureServer in the
source, so a session can be created before a relative path is rejected. -/
def recognizeImage (st : State) (env : SessionEnv) (fs : FsEnv) (imagePath : String)
    (reply : String) : State × String × CallLog :=
  let es := ensureServer env
  if !es.1 then
    ({ st with error := ⟨APIServerNotAvailable, ""⟩ }, "", ⟨es.2, false⟩)
  else if imagePath = "" then
    ({ st with error := ⟨InvalidParameter, "Empty image path"⟩ }, "", ⟨es.2, false⟩)
  else if !isAbsolutePath imagePath then
    ({ st with error := ⟨InvalidParameter, "Relative path not allowed for security reasons"⟩ },
     "", ⟨es.2, false⟩)
  else if !(fs.existingFiles.contains imagePath) then
    ({ st with error := ⟨InvalidParameter, "Image file does not exist"⟩ }, "", ⟨es.2, false⟩)
  else
    match fromJson? reply with
    | none =>
        ({ running := false, error := ⟨ParseError, parseErrorText⟩ }, "", ⟨es.2, true⟩)
    | some v =>
        let obj := match v with | JValue.jobj fields => fields | _ => []
        if hashContains obj "error" && jsonValueToBool (hashGet? obj "error") then
          ({ running := false,
             error := ⟨jsonValueToInt (hashGet? obj "error_code"),
                       jsonValueToString (hashGet? obj "error_message")⟩ }, "", ⟨es.2, true⟩)
        else
          ({ running := false, error := ⟨NoError, ""⟩ },
           jsonValueToString (hashGet? obj "content"), ⟨es.2, true⟩)

/-- Signals a DImageRecognition can emit. -/
inductive Signal where
  | result (text : String)
  | error (code : Int) (msg : String)
  | completed (finalResult : String)
deriving Repr, DecidableEq

/-- DImageRecognitionPrivate::onRecognitionResult: the session identifier
argument is ignored (Q_UNUSED); the running flag is cleared and the result is
re-emitted unconditionally. -/
def onRecognitionResult (st : State) (sessionId : String) (result : String) :
    State × List Signal :=
  let _ := sessionId
  ({ st with running := false }, [Signal.result result])

/-- DImageRecognitionPrivate::onRecognitionError: the session identifier is
ignored; the error state is overwritten, the running flag cleared, and the
error re-emitted unconditionally. -/
def onRecognitionError (st : State) (sessionId : String) (errorCode : Int)
    (errorMessage : String) : State × List Signal :=
  let _ := sessionId
  ({ st with running := false, error := ⟨errorCode, errorMessage⟩ },
   [Signal.error errorCode errorMessage])

/-- DImageRecognitionPrivate::onRecognitionCompleted: the session identifier
is ignored; the running flag is cleared and the completion re-emitted
unconditionally. -/
def onRecognitionCompleted (st : State) (sessionId : String) (finalResult : String) :
    State × List Signal :=
  let _ := sessionId
  ({ st with running := false }, [Signal.completed finalResult])

/-- DImageRecognition::terminate. -/
def terminate (st : State) (hasIfs : Bool) : State × Bool :=
  ({ st with running := false }, hasIfs)

end DImageRecognition

/-! ## DChatCompletions (src/src/nlp/dchatcompletions.cpp) -/

namespace DChatCompletions

/-- Mutable per-instance state of a DChatCompletions. -/
structure State where
  running : Bool
  error : DError
deriving Repr, DecidableEq

/-- One chat-history entry (role, content). -/
structure ChatHistory where
  role : String
  content : String
deriving Repr, DecidableEq

/-- DChatCompletionsPrivate::packageParams, at the JSON-value level: the
history becomes an ordered array of role/content objects stored under the
messages key of a fresh root hash, then every caller-supplied pair is
inserted into the root, overwriting on key collision. The source serializes
this root with QJsonDocument::toJson(Compact); Qt serialization and parsing
are lossless on JSON values, so the claims about the packaged string are
stated on this root object. -/
def packageParams (history : List ChatHistory) (params : List (String × JValue)) :
    List (String × JValue) :=
  let msgs := JValue.jarr (history.map fun chat =>
    JValue.jobj [("role", JValue.jstr chat.role), ("content", JValue.jstr chat.content)])
  let root := hashInsert [] "messages" msgs
  params.foldl (fun acc kv => hashInsert acc kv.1 kv.2) root

/-- DChatCompletions::chat. The prompt, history and params feed the remote
call; the reply argument is the string that remote call returns. Output:
final state and the returned string. -/
def chat (st : State) (env : SessionEnv) (prompt : String)
    (history : List ChatHistory) (params : List (String × JValue))
    (reply : String) : State × String :=
  let _ := prompt
  let _ := packageParams history params
  if st.running then (st, "")
  else if !(ensureServer env).1 then
    ({ st with error := ⟨APIServerNotAvailable, ""⟩ }, "")
  else
    let var := docObject reply
    if hashContains var "error" then
      ({ running := false,
         error := ⟨variantToInt (hashGet? var "error"),
                   variantToString (hashGet? var "errorMessage")⟩ }, reply)
    else
      ({ running := false, error := ⟨NoError, ""⟩ },
       variantToString (hashGet? var "content"))

/-- DChatCompletions::terminate: forwards a stop request when a proxy is held;
touches neither the running flag nor the error state. -/
def terminate (st : State) (hasIfs : Bool) : State × Bool :=
  (st, hasIfs)

end DChatCompletions

/-! ## DFunctionCalling (src/unnamed/part_003) -/

namespace DFunctionCalling

/-- Mutable per-instance state of a DFunctionCalling. -/
structure State where
  running : Bool
  error : DError
deriving Repr, DecidableEq

/-- DFunctionCallingPrivate::packageParams: empty string for an empty map,
otherwise the compact JSON serialization of the map. -/
def packageParams (params : List (String × JValue)) : String :=
  if params.isEmpty then "" else jsonToString (JValue.jobj params)

/-- DFunctionCalling::parse. The reply argument is the string the remote
Parse call returns. Output: final state and the returned string. -/
def parse (st : State) (env : SessionEnv) (prompt : String) (functions : String)
    (params : List (String × JValue)) (reply : String) : State × String :=
  let _ := packageParams params
  if prompt = "" || functions = "" then (st, "")
  else if st.running then (st, "")
  else if !(ensureServer env).1 then
    ({ st with error := ⟨APIServerNotAvailable, ""⟩ }, "")
  else
    let var := docObject reply
    if hashContains var "error" then
      ({ running := false,
         error := ⟨variantToInt (hashGet? var "error"),
                   variantToString (hashGet? var "errorMessage")⟩ }, reply)
    else
      ({ running := false, error := ⟨NoError, ""⟩ },
       jsonToString (JValue.jobj (variantToHash (hashGet? var "function"))))

/-- DFunctionCalling::terminate: forwards a stop request when a proxy is held;
touches neither the running flag nor the error state. -/
def terminate (st : State) (hasIfs : Bool) : State × Bool :=
  (st, hasIfs)

end DFunctionCalling

/-! ## DSpeechToText (second half of src/src/chat/dmodelmanager.cpp) -/

namespace DSpeechToText

/-- Mutable per-instance state of a DSpeechToText: running flag, error object
and the stored stream-session identifier (empty = none stored). -/
structure State where
  running : Bool
  error : DError
  streamId : String
deriving Repr, DecidableEq

/-- DSpeechToText::recognizeFile. The reply argument is the string the remote
recognizeFile call returns. -/
def recognizeFile (st : State) (env : SessionEnv) (audioFile : String)
    (reply : String) : State × String :=
  let _ := audioFile
  if st.running then (st, "")
  else if !(ensureServer env).1 then
    ({ st with error := ⟨APIServerNotAvailable, ""⟩ }, "")
  else
    let var := docObject reply
    let errorCode := variantToInt (hashGet? var "error_code")
    if errorCode ≠ 0 then
      ({ st with
          running := false,
          error := ⟨errorCode, variantToString (hashGet? var "error_message")⟩ }, "")
    else
      ({ st with running := false, error := ⟨0, ""⟩ },
       variantToString (hashGet? var "text"))

/-- DSpeechToText::startStreamRecognition. remoteStreamId is the identifier
the remote startStreamRecognition call returns. -/
def startStreamRecognition (st : State) (env : SessionEnv)
    (remoteStreamId : String) : State × Bool :=
  if st.running then (st, false)
  else if !(ensureServer env).1 then
    ({ st with error := ⟨APIServerNotAvailable, ""⟩ }, false)
  else if remoteStreamId = "" then
    ({ st with
        running := false,
        error := ⟨APIServerNotAvailable, "Failed to start stream recognition"⟩ }, false)
  else
    ({ st with running := true, streamId := remoteStreamId }, true)

/-- DSpeechToText::endStreamRecognition. hasIfs models whether the proxy
object is non-null; reply is the string the remote endStreamRecognition call
returns. Output: final state, returned string, and the identifier the remote
call was issued with (none = no remote call). The reply is returned verbatim,
without any parsing. -/
def endStreamRecognition (st : State) (hasIfs : Bool) (reply : String) :
    State × String × Option String :=
  if !hasIfs || st.streamId = "" then (st, "", none)
  else
    ({ st with running := false, streamId := "" }, reply, some st.streamId)

/-- DSpeechToText::terminate: forwards a stop request when a proxy is held and
unconditionally clears the running flag and the stored stream identifier. -/
def terminate (st : State) (hasIfs : Bool) : State × Bool :=
  ({ st with running := false, streamId := "" }, hasIfs)

/-- Signals a DSpeechToText can emit. -/
inductive Signal where
  | result (text : String)
  | partResult (text : String)
  | error (code : Int) (msg : String)
  | completed (finalText : String)
deriving Repr, DecidableEq

/-- DSpeechToTextPrivate::onRecognitionResult: events whose stream identifier
differs from the stored one are dropped. -/
def onRecognitionResult (st : State) (streamSessionId : String) (text : String) :
    State × List Signal :=
  if streamSessionId = st.streamId then (st, [Signal.result text]) else (st, [])

/-- DSpeechToTextPrivate::onRecognitionPartialResult (renamed here to avoid a
reserved word); same identifier filter. -/
def onRecognitionPartResult (st : State) (streamSessionId : String) (text : String) :
    State × List Signal :=
  if streamSessionId = st.streamId then (st, [Signal.partResult text]) else (st, [])

/-- DSpeechToTextPrivate::onRecognitionError: on a matching identifier the
running flag is cleared, the error state overwritten and the error
re-emitted; otherwise the event is dropped. -/
def onRecognitionError (st : State) (streamSessionId : String) (errorCode : Int)
    (errorMessage : String) : State × List Signal :=
  if streamSessionId = st.streamId then
    ({ st with running := false, error := ⟨errorCode, errorMessage⟩ },
     [Signal.error errorCode errorMessage])
  else (st, [])

/-- DSpeechToTextPrivate::onRecognitionCompleted: on a matching identifier the
running flag is cleared, the error state reset to (0, empty) and the final
text re-emitted; otherwise the event is dropped. -/
def onRecognitionCompleted (st : State) (streamSessionId : String)
    (finalText : String) : State × List Signal :=
  if streamSessionId = st.streamId then
    ({ st with running := false, error := ⟨0, ""⟩ }, [Signal.completed finalText])
  else (st, [])

end DSpeechToText

/-! ## DTextToSpeech (src/src/speech/dtexttospeech.cpp) -/

namespace DTextToSpeech

/-- Mutable per-instance state of a DTextToSpeech. -/
structure State where
  running : Bool
  error : DError
  streamId : String
deriving Repr, DecidableEq

/-- DTextToSpeech::synthesizeText. The reply argument is the string the
remote synthesizeText call returns; the local result byte array is
initialized empty and never populated on any branch. -/
def synthesizeText (st : State) (env : SessionEnv) (text : String)
    (params : List (String × JValue)) (reply : String) : State × List Nat :=
  let _ := text
  let _ := params
  if st.running then (st, [])
  else if !(ensureServer env).1 then
    ({ st with error := ⟨APIServerNotAvailable, ""⟩ }, [])
  else
    let var := docObject reply
    let errorCode := variantToInt (hashGet? var "error_code")
    if errorCode ≠ 0 then
      ({ st with
          running := false,
          error := ⟨errorCode, variantToString (hashGet? var "error_message")⟩ }, [])
    else
      ({ st with running := false, error := ⟨0, ""⟩ }, [])

/-- DTextToSpeech::startStreamSynthesis. remoteStreamId is the identifier the
remote startStreamSynthesis call returns. -/
def startStreamSynthesis (st : State) (env : SessionEnv) (text : String)
    (remoteStreamId : String) : State × Bool :=
  let _ := text
  if st.running then (st, false)
  else if !(ensureServer env).1 then
    ({ st with error := ⟨APIServerNotAvailable, ""⟩ }, false)
  else if remoteStreamId = "" then
    ({ st with
        running := false,
        error := ⟨APIServerNotAvailable, "Failed to start stream synthesis"⟩ }, false)
  else
    ({ st with running := true, streamId := remoteStreamId }, true)

/-- DTextToSpeech::endStreamSynthesis. hasIfs models whether the proxy object
is non-null; reply is the string the remote endStreamSynthesis call returns.
Output: final state, returned audio bytes, and the identifier the remote call
was issued with (none = no remote call). The reply is parsed once: on a zero
error_code the audio_data field is base64-decoded, otherwise the error state
is set and the empty byte array returned. -/
def endStreamSynthesis (st : State) (hasIfs : Bool) (reply : String) :
    State × List Nat × Option String :=
  if !hasIfs || st.streamId = "" then (st, [], none)
  else
    let var := docObject reply
    let errorCode := variantToInt (hashGet? var "error_code")
    if errorCode = 0 then
      ({ st with running := false, streamId := "" },
       fromBase64 (variantToString (hashGet? var "audio_data")), some st.streamId)
    else
      ({ st with
          running := false,
          streamId := "",
          error := ⟨errorCode, variantToString (hashGet? var "error_message")⟩ },
       [], some st.streamId)

/-- DTextToSpeech::terminate: forwards a stop request when a proxy is held and
unconditionally clears the running flag and the stored stream identifier. -/
def terminate (st : State) (hasIfs : Bool) : State × Bool :=
  ({ st with running := false, streamId := "" }, hasIfs)

/-- Signals a DTextToSpeech can emit. -/
inductive Signal where
  | result (audio : List Nat)
  | error (code : Int) (msg : String)
  | completed (finalAudio : List Nat)
deriving Repr, DecidableEq

/-- DTextToSpeechPrivate::onSynthesisResult: events whose stream identifier
differs from the stored one are dropped. -/
def onSynthesisResult (st : State) (streamSessionId : String) (audioData : List Nat) :
    State × List Signal :=
  if streamSessionId = st.streamId then (st, [Signal.result audioData]) else (st, [])

/-- DTextToSpeechPrivate::onSynthesisError: on a matching identifier the
running flag is cleared, the error state overwritten and the error
re-emitted; otherwise the event is dropped. -/
def onSynthesisError (st : State) (streamSessionId : String) (errorCode : Int)
    (errorMessage : String) : State × List Signal :=
  if streamSessionId = st.streamId then
    ({ st with running := false, error := ⟨errorCode, errorMessage⟩ },
     [Signal.error errorCode errorMessage])
  else (st, [])

/-- DTextToSpeechPrivate::onSynthesisCompleted: on a matching identifier the
running flag is cleared, the error state reset to (0, empty) and the final
audio re-emitted; otherwise the event is dropped. -/
def onSynthesisCompleted (st : State) (streamSessionId : String)
    (finalAudio : List Nat) : State × List Signal :=
  if streamSessionId = st.streamId then
    ({ st with running := false, error := ⟨0, ""⟩ }, [Signal.completed finalAudio])
  else (st, [])

end DTextToSpeech

/-! ## Helper lemmas on hash insertion -/

/-- Looking up the key just inserted yields the inserted value. -/
theorem hashGet?_hashInsert_self (m : List (String × JValue)) (k : String) (v : JValue) :
    hashGet? (hashInsert m k v) k = some v := by
  induction m with
  | nil => simp [hashInsert, hashGet?]
  | cons p rest ih =>
      obtain ⟨k0, v0⟩ := p
      by_cases h : k0 = k
      · simp [hashInsert, hashGet?, h]
      · simp [hashInsert, hashGet?, h, ih]

/-- Insertion leaves the value of every other key unchanged. -/
theorem hashGet?_hashInsert_ne (m : List (String × JValue)) (k kq : String) (v : JValue)
    (h : kq ≠ k) : hashGet? (hashInsert m k v) kq = hashGet? m kq := by
  induction m with
  | nil => simp [hashInsert, hashGet?, Ne.symm h]
  | cons p rest ih =>
      obtain ⟨k0, v0⟩ := p
      by_cases h0 : k0 = k
      · subst h0
        simp [hashInsert, hashGet?, Ne.symm h]
      · simp [hashInsert, hashGet?, h0, ih]

/-- Folding insertions of pairs whose keys avoid kq leaves kq unchanged. -/
theorem hashGet?_foldl_not_mem (params : List (String × JValue))
    (acc : List (String × JValue)) (kq : String) (h : kq ∉ params.map Prod.fst) :
    hashGet? (params.foldl (fun acc kv => hashInsert acc kv.1 kv.2) acc) kq =
      hashGet? acc kq := by
  induction params generalizing acc with
  | nil => simp
  | cons p rest ih =>
      obtain ⟨k0, v0⟩ := p
      simp only [List.map, List.mem_cons, not_or] at h
      simp only [List.foldl]
      rw [ih (hashInsert acc k0 v0) h.2, hashGet?_hashInsert_ne acc k0 kq v0 h.1]

/-- Folding insertions of a map with pairwise-distinct keys makes every pair
of the map retrievable. -/
theorem hashGet?_foldl_mem (params : List (String × JValue))
    (acc : List (String × JValue)) (k : String) (v : JValue)
    (hnd : (params.map Prod.fst).Nodup) (hmem : (k, v) ∈ params) :
    hashGet? (params.foldl (fun acc kv => hashInsert acc kv.1 kv.2) acc) k = some v := by
  induction params generalizing acc with
  | nil => cases hmem
  | cons p rest ih =>
      obtain ⟨k0, v0⟩ := p
      simp only [List.map_cons, List.nodup_cons] at hnd
      rcases List.mem_cons.mp hmem with heq | hrest
      · have hk : k = k0 := congrArg Prod.fst heq
        have hv : v = v0 := congrArg Prod.snd heq
        subst hk
        subst hv
        simp only [List.foldl_cons]
        rw [hashGet?_foldl_not_mem rest (hashInsert acc k v) k hnd.1,
          hashGet?_hashInsert_self]
      · simp only [List.foldl_cons]
        exact ih (hashInsert acc k0 v0) hnd.2 hrest

/-! ## Claim theorems -/

/-- C9: DTextToSpeech::synthesizeText returns the empty byte array for every
state, environment, input and daemon reply, including replies that report
success; success and failure are distinguishable only through the error
state, never through the return value. -/
theorem c9_synthesize_text_always_empty (st : DTextToSpeech.State) (env : SessionEnv)
    (text : String) (params : List (String × JValue)) (reply : String) :
    (DTextToSpeech.synthesizeText st env text params reply).2 = [] := by
  simp only [DTextToSpeech.synthesizeText]
  split
  · rfl
  · split
    · rfl
    · split <;> rfl

/-- C10: the DImageRecognition asynchronous handlers ignore the event's
session identifier: for every identifier value the effect is identical; the
result and completed handlers re-emit their payload, and the error handler
always overwrites the error state and clears the running flag, even for a
stale or foreign session identifier. -/
theorem c10_image_handlers_ignore_session_id (st : DImageRecognition.State)
    (id1 id2 text msg fin : String) (code : Int) :
    DImageRecognition.onRecognitionResult st id1 text =
        DImageRecognition.onRecognitionResult st id2 text ∧
    DImageRecognition.onRecognitionError st id1 code msg =
        DImageRecognition.onRecognitionError st id2 code msg ∧
    DImageRecognition.onRecognitionCompleted st id1 fin =
        DImageRecognition.onRecognitionCompleted st id2 fin ∧
    DImageRecognition.onRecognitionResult st id1 text =
        ({ st with running := false }, [DImageRecognition.Signal.result text]) ∧
    DImageRecognition.onRecognitionError st id1 code msg =
        ({ st with running := false, error := ⟨code, msg⟩ },
         [DImageRecognition.Signal.error code msg]) ∧
    DImageRecognition.onRecognitionCompleted st id1 fin =
        ({ st with running := false }, [DImageRecognition.Signal.completed fin]) :=
  ⟨rfl, rfl, rfl, rfl, rfl, rfl⟩

/-- C4 counterexample: on DChatCompletions and DFunctionCalling, terminate
does not clear the running flag: with the flag set and a proxy held, it is
still set after terminate returns, refuting the claim that the flag is false
after terminate on every client class. -/
theorem c4_chat_terminate_leaves_running :
    (DChatCompletions.terminate ⟨true, ⟨0, ""⟩⟩ true).1.running = true ∧
    (DFunctionCalling.terminate ⟨true, ⟨0, ""⟩⟩ true).1.running = true :=
  ⟨rfl, rfl⟩

/-- C4 amended: terminate never raises (every model below is a total
function) and forwards a best-effort stop request exactly when a proxy is
held; DOCRRecognition and DImageRecognition additionally clear the running
flag, and DSpeechToText and DTextToSpeech clear the running flag and the
stored stream identifier, but DChatCompletions and DFunctionCalling leave
their state, including the running flag, entirely unchanged. -/
theorem c4_amended_terminate_behavior (hasIfs : Bool)
    (stO : DOCRRecognition.State) (stI : DImageRecognition.State)
    (stC : DChatCompletions.State) (stF : DFunctionCalling.State)
    (stS : DSpeechToText.State) (stT : DTextToSpeech.State) :
    DOCRRecognition.terminate stO hasIfs = ({ stO with running := false }, hasIfs) ∧
    DImageRecognition.terminate stI hasIfs = ({ stI with running := false }, hasIfs) ∧
    DSpeechToText.terminate stS hasIfs =
        ({ stS with running := false, streamId := "" }, hasIfs) ∧
    DTextToSpeech.terminate stT hasIfs =
        ({ stT with running := false, streamId := "" }, hasIfs) ∧
    DChatCompletions.terminate stC hasIfs = (stC, hasIfs) ∧
    DFunctionCalling.terminate stF hasIfs = (stF, hasIfs) :=
  ⟨rfl, rfl, rfl, rfl, rfl, rfl⟩

/-- C1 (code bug): a relative path is not rejected before remote traffic.
DOCRRecognition::recognizeFile and recognizeRegionFromString forward a
relative path to the daemon (the remote call is issued, the daemon payload is
returned, the error state says NoError rather than InvalidParameter), and
DImageRecognition::recognizeImage on a fresh instance creates a daemon
session before its relative-path rejection fires. -/
theorem c1_relative_path_not_rejected :
    DOCRRecognition.recognizeFile ⟨false, ⟨0, ""⟩⟩ ⟨true, true, "s"⟩ "relative/path.png"
        "\x7b\"text\":\"hello\"\x7d"
      = (⟨false, ⟨NoError, ""⟩⟩, "hello", ⟨false, true⟩) ∧
    DOCRRecognition.recognizeRegionFromString ⟨false, ⟨0, ""⟩⟩ ⟨true, true, "s"⟩
        "relative/path.png" "0,0,10,10" "\x7b\"text\":\"hello\"\x7d"
      = (⟨false, ⟨NoError, ""⟩⟩, "hello", ⟨false, true⟩) ∧
    DImageRecognition.recognizeImage ⟨false, ⟨0, ""⟩⟩ ⟨false, true, "sess"⟩ ⟨[]⟩
        "relative/img.png" "\x7b\"content\":\"cat\"\x7d"
      = (⟨false, ⟨InvalidParameter, "Relative path not allowed for security reasons"⟩⟩,
         "", ⟨true, false⟩) :=
  ⟨rfl, rfl, rfl⟩

/-- C2 (code bug): on a daemon reply carrying an error, DChatCompletions::chat
and DFunctionCalling::parse record the error into the error state but return
the raw, non-empty reply string instead of the empty string. -/
theorem c2_chat_returns_raw_reply_on_daemon_error :
    DChatCompletions.chat ⟨false, ⟨0, ""⟩⟩ ⟨true, true, "s"⟩ "hi" [] []
        "\x7b\"error\":5,\"errorMessage\":\"boom\"\x7d"
      = (⟨false, ⟨5, "boom"⟩⟩, "\x7b\"error\":5,\"errorMessage\":\"boom\"\x7d") ∧
    DFunctionCalling.parse ⟨false, ⟨0, ""⟩⟩ ⟨true, true, "s"⟩ "p" "fns" []
        "\x7b\"error\":5,\"errorMessage\":\"boom\"\x7d"
      = (⟨false, ⟨5, "boom"⟩⟩, "\x7b\"error\":5,\"errorMessage\":\"boom\"\x7d") ∧
    "\x7b\"error\":5,\"errorMessage\":\"boom\"\x7d" ≠ "" :=
  ⟨rfl, rfl, by decide⟩

/-- C3 counterexample: DSpeechToText::endStreamRecognition does not parse the
returned payload: with a stream identifier stored, it returns the remote
reply verbatim instead of the extracted final text. -/
theorem c3_stt_end_stream_returns_unparsed_reply :
    (DSpeechToText.endStreamRecognition ⟨true, ⟨0, ""⟩, "s1"⟩ true
        "\x7b\"error_code\":0,\"text\":\"hi\"\x7d").2.1
      = "\x7b\"error_code\":0,\"text\":\"hi\"\x7d" ∧
    "\x7b\"error_code\":0,\"text\":\"hi\"\x7d" ≠ "hi" :=
  ⟨rfl, by decide⟩

/-- C3 amended: with a proxy held and a stream identifier stored, both
end-stream operations issue one remote end-stream call with the stored
identifier, clear the identifier and clear the running flag;
DTextToSpeech::endStreamSynthesis additionally parses the returned payload
exactly once (base64-decoding the audio_data field on a zero error code,
recording the error otherwise), while DSpeechToText::endStreamRecognition
returns the returned payload verbatim without parsing it. -/
theorem c3_amended_end_stream_behavior
    (stS : DSpeechToText.State) (stT : DTextToSpeech.State) (replyS replyT : String)
    (hS : stS.streamId ≠ "") (hT : stT.streamId ≠ "") :
    DSpeechToText.endStreamRecognition stS true replyS
      = ({ stS with running := false, streamId := "" }, replyS, some stS.streamId) ∧
    DTextToSpeech.endStreamSynthesis stT true replyT
      = (if variantToInt (hashGet? (docObject replyT) "error_code") = 0 then
           ({ stT with running := false, streamId := "" },
            fromBase64 (variantToString (hashGet? (docObject replyT) "audio_data")),
            some stT.streamId)
         else
           ({ stT with
               running := false,
               streamId := "",
               error := ⟨variantToInt (hashGet? (docObject replyT) "error_code"),
                         variantToString (hashGet? (docObject replyT) "error_message")⟩ },
            [], some stT.streamId)) := by
  constructor
  · simp [DSpeechToText.endStreamRecognition, hS]
  · simp only [DTextToSpeech.endStreamSynthesis, hT, Bool.not_true, decide_not]
    simp [hT]

/-- C3 witness: the amended end-stream behavior evaluated at concrete stored
identifiers and concrete replies. -/
theorem c3_amended_end_stream_behavior_witness :
    DSpeechToText.endStreamRecognition ⟨true, ⟨0, ""⟩, "a"⟩ true "final text"
      = (⟨false, ⟨0, ""⟩, ""⟩, "final text", some "a") ∧
    DTextToSpeech.endStreamSynthesis ⟨true, ⟨0, ""⟩, "b"⟩ true
        "\x7b\"error_code\":0,\"audio_data\":\"aGk=\"\x7d"
      = (⟨false, ⟨0, ""⟩, ""⟩, [104, 105], some "b") := by
  have h := c3_amended_end_stream_behavior ⟨true, ⟨0, ""⟩, "a"⟩ ⟨true, ⟨0, ""⟩, "b"⟩
      "final text" "\x7b\"error_code\":0,\"audio_data\":\"aGk=\"\x7d"
      (by decide) (by decide)
  exact ⟨h.1, h.2.trans (by decide)⟩

/-- C5 counterexample: a chat reply whose error field equals 0 is not treated
as success-with-payload: the content field is not extracted and the raw reply
is returned, while the error state reads code 0. -/
theorem c5_chat_error_zero_not_extracted :
    DChatCompletions.chat ⟨false, ⟨0, ""⟩⟩ ⟨true, true, "s"⟩ "q" [] []
        "\x7b\"error\":0,\"content\":\"hi\"\x7d"
      = (⟨false, ⟨0, ""⟩⟩, "\x7b\"error\":0,\"content\":\"hi\"\x7d") ∧
    "\x7b\"error\":0,\"content\":\"hi\"\x7d" ≠ "hi" :=
  ⟨rfl, by decide⟩

/-- C5 amended: DSpeechToText::recognizeFile branches on the numeric value of
the error_code field (nonzero = error, zero or absent = success with the text
field extracted and the error state cleared); DChatCompletions::chat and
DFunctionCalling::parse instead branch on the presence of the error key: when
it is present, with any value including zero, the error state takes that
value with the errorMessage field and the raw reply is returned; only when it
is absent is the payload (content, repackaged function object) extracted and
the error state cleared to NoError. -/
theorem c5_amended_reply_unpacking
    (stS : DSpeechToText.State) (stC : DChatCompletions.State)
    (stF : DFunctionCalling.State) (env : SessionEnv)
    (audioFile prompt functions reply : String)
    (history : List DChatCompletions.ChatHistory)
    (params paramsF : List (String × JValue))
    (hS : stS.running = false) (hC : stC.running = false) (hF : stF.running = false)
    (hE : (ensureServer env).1 = true) (hP : prompt ≠ "") (hFn : functions ≠ "") :
    (variantToInt (hashGet? (docObject reply) "error_code") ≠ 0 →
      DSpeechToText.recognizeFile stS env audioFile reply =
        ({ stS with
            running := false,
            error := ⟨variantToInt (hashGet? (docObject reply) "error_code"),
                      variantToString (hashGet? (docObject reply) "error_message")⟩ }, "")) ∧
    (variantToInt (hashGet? (docObject reply) "error_code") = 0 →
      DSpeechToText.recognizeFile stS env audioFile reply =
        ({ stS with running := false, error := ⟨0, ""⟩ },
         variantToString (hashGet? (docObject reply) "text"))) ∧
    (hashContains (docObject reply) "error" = true →
      DChatCompletions.chat stC env prompt history params reply =
        (⟨false, ⟨variantToInt (hashGet? (docObject reply) "error"),
                  variantToString (hashGet? (docObject reply) "errorMessage")⟩⟩, reply)) ∧
    (hashContains (docObject reply) "error" = false →
      DChatCompletions.chat stC env prompt history params reply =
        (⟨false, ⟨NoError, ""⟩⟩, variantToString (hashGet? (docObject reply) "content"))) ∧
    (hashContains (docObject reply) "error" = true →
      DFunctionCalling.parse stF env prompt functions paramsF reply =
        (⟨false, ⟨variantToInt (hashGet? (docObject reply) "error"),
                  variantToString (hashGet? (docObject reply) "errorMessage")⟩⟩, reply)) ∧
    (hashContains (docObject reply) "error" = false →
      DFunctionCalling.parse stF env prompt functions paramsF reply =
        (⟨false, ⟨NoError, ""⟩⟩,
         jsonToString (JValue.jobj (variantToHash (hashGet? (docObject reply) "function"))))) := by
  refine ⟨fun h => ?_, fun h => ?_, fun h => ?_, fun h => ?_, fun h => ?_, fun h => ?_⟩
  · simp [DSpeechToText.recognizeFile, hS, hE, h]
  · simp [DSpeechToText.recognizeFile, hS, hE, h]
  · simp [DChatCompletions.chat, hC, hE, h]
  · simp [DChatCompletions.chat, hC, hE, h]
  · simp [DFunctionCalling.parse, hF, hE, hP, hFn, h]
  · simp [DFunctionCalling.parse, hF, hE, hP, hFn, h]

/-- C5 witness: the amended unpacking behavior evaluated on concrete replies
for each of the three operations. -/
theorem c5_amended_reply_unpacking_witness :
    DSpeechToText.recognizeFile ⟨false, ⟨0, ""⟩, ""⟩ ⟨true, true, "x"⟩ "/a.wav"
        "\x7b\"text\":\"ok\"\x7d" = (⟨false, ⟨0, ""⟩, ""⟩, "ok") ∧
    DChatCompletions.chat ⟨false, ⟨0, ""⟩⟩ ⟨true, true, "x"⟩ "q" [] []
        "\x7b\"content\":\"hi\"\x7d" = (⟨false, ⟨0, ""⟩⟩, "hi") ∧
    DFunctionCalling.parse ⟨false, ⟨0, ""⟩⟩ ⟨true, true, "x"⟩ "q" "fns" []
        "\x7b\"error\":9,\"errorMessage\":\"bad\"\x7d"
      = (⟨false, ⟨9, "bad"⟩⟩, "\x7b\"error\":9,\"errorMessage\":\"bad\"\x7d") := by
  have h1 := c5_amended_reply_unpacking ⟨false, ⟨0, ""⟩, ""⟩ ⟨false, ⟨0, ""⟩⟩
      ⟨false, ⟨0, ""⟩⟩ ⟨true, true, "x"⟩ "/a.wav" "q" "fns" "\x7b\"text\":\"ok\"\x7d" [] [] []
      rfl rfl rfl rfl (by decide) (by decide)
  have h2 := c5_amended_reply_unpacking ⟨false, ⟨0, ""⟩, ""⟩ ⟨false, ⟨0, ""⟩⟩
      ⟨false, ⟨0, ""⟩⟩ ⟨true, true, "x"⟩ "/a.wav" "q" "fns" "\x7b\"content\":\"hi\"\x7d" [] [] []
      rfl rfl rfl rfl (by decide) (by decide)
  have h3 := c5_amended_reply_unpacking ⟨false, ⟨0, ""⟩, ""⟩ ⟨false, ⟨0, ""⟩⟩
      ⟨false, ⟨0, ""⟩⟩ ⟨true, true, "x"⟩ "/a.wav" "q" "fns"
      "\x7b\"error\":9,\"errorMessage\":\"bad\"\x7d" [] [] []
      rfl rfl rfl rfl (by decide) (by decide)
  exact ⟨(h1.2.1 (by decide)).trans rfl,
         (h2.2.2.2.1 (by decide)).trans rfl,
         (h3.2.2.2.2.1 (by decide)).trans rfl⟩

/-- C6: for the text-to-speech and speech-to-text stream handlers, every
event whose embedded identifier differs from the stored one has no effect at
all (state unchanged, no signal emitted), and every event whose identifier
matches is processed as coded. -/
theorem c6_stream_events_filtered_by_id
    (stT : DTextToSpeech.State) (stS : DSpeechToText.State) (eventId : String)
    (audio fin : List Nat) (code : Int) (msg text finText : String) :
    (eventId ≠ stT.streamId →
      DTextToSpeech.onSynthesisResult stT eventId audio = (stT, []) ∧
      DTextToSpeech.onSynthesisError stT eventId code msg = (stT, []) ∧
      DTextToSpeech.onSynthesisCompleted stT eventId fin = (stT, [])) ∧
    (eventId ≠ stS.streamId →
      DSpeechToText.onRecognitionResult stS eventId text = (stS, []) ∧
      DSpeechToText.onRecognitionPartResult stS eventId text = (stS, []) ∧
      DSpeechToText.onRecognitionError stS eventId code msg = (stS, []) ∧
      DSpeechToText.onRecognitionCompleted stS eventId finText = (stS, [])) ∧
    (eventId = stT.streamId →
      DTextToSpeech.onSynthesisResult stT eventId audio =
        (stT, [DTextToSpeech.Signal.result audio]) ∧
      DTextToSpeech.onSynthesisError stT eventId code msg =
        ({ stT with running := false, error := ⟨code, msg⟩ },
         [DTextToSpeech.Signal.error code msg]) ∧
      DTextToSpeech.onSynthesisCompleted stT eventId fin =
        ({ stT with running := false, error := ⟨0, ""⟩ },
         [DTextToSpeech.Signal.completed fin])) ∧
    (eventId = stS.streamId →
      DSpeechToText.onRecognitionResult stS eventId text =
        (stS, [DSpeechToText.Signal.result text]) ∧
      DSpeechToText.onRecognitionPartResult stS eventId text =
        (stS, [DSpeechToText.Signal.partResult text]) ∧
      DSpeechToText.onRecognitionError stS eventId code msg =
        ({ stS with running := false, error := ⟨code, msg⟩ },
         [DSpeechToText.Signal.error code msg]) ∧
      DSpeechToText.onRecognitionCompleted stS eventId finText =
        ({ stS with running := false, error := ⟨0, ""⟩ },
         [DSpeechToText.Signal.completed finText])) := by
  refine ⟨fun h => ?_, fun h => ?_, fun h => ?_, fun h => ?_⟩
  · exact ⟨by simp [DTextToSpeech.onSynthesisResult, h],
           by simp [DTextToSpeech.onSynthesisError, h],
           by simp [DTextToSpeech.onSynthesisCompleted, h]⟩
  · exact ⟨by simp [DSpeechToText.onRecognitionResult, h],
           by simp [DSpeechToText.onRecognitionPartResult, h],
           by simp [DSpeechToText.onRecognitionError, h],
           by simp [DSpeechToText.onRecognitionCompleted, h]⟩
  · exact ⟨by simp [DTextToSpeech.onSynthesisResult, h],
           by simp [DTextToSpeech.onSynthesisError, h],
           by simp [DTextToSpeech.onSynthesisCompleted, h]⟩
  · exact ⟨by simp [DSpeechToText.onRecognitionResult, h],
           by simp [DSpeechToText.onRecognitionPartResult, h],
           by simp [DSpeechToText.onRecognitionError, h],
           by simp [DSpeechToText.onRecognitionCompleted, h]⟩

/-- C6 witness: a stale error event is dropped with no state change, and a
matching completed event is processed. -/
theorem c6_stream_events_filtered_by_id_witness :
    DTextToSpeech.onSynthesisError ⟨true, ⟨0, ""⟩, "s1"⟩ "stale" 7 "x"
      = (⟨true, ⟨0, ""⟩, "s1"⟩, []) ∧
    DSpeechToText.onRecognitionCompleted ⟨true, ⟨0, ""⟩, "s2"⟩ "s2" "done"
      = (⟨false, ⟨0, ""⟩, "s2"⟩, [DSpeechToText.Signal.completed "done"]) := by
  have h1 := c6_stream_events_filtered_by_id ⟨true, ⟨0, ""⟩, "s1"⟩ ⟨true, ⟨0, ""⟩, "s2"⟩
      "stale" [] [] 7 "x" "t" "f"
  have h2 := c6_stream_events_filtered_by_id ⟨true, ⟨0, ""⟩, "s1"⟩ ⟨true, ⟨0, ""⟩, "s2"⟩
      "s2" [] [] 7 "x" "t" "done"
  exact ⟨(h1.1 (by decide)).2.1, ((h2.2.2.2 rfl).2.2.2).trans rfl⟩

/-- C7: DChatCompletionsPrivate::packageParams builds one root JSON object in
which the history appears as the ordered role/content array under the
messages key unless the caller supplied a messages key, every caller pair is
retrievable unchanged (the round-trip property, stated on the JSON object
value since the Qt compact serialize/parse pair is lossless), and no key
beyond the caller map and messages is present. -/
theorem c7_package_params_spec (history : List DChatCompletions.ChatHistory)
    (params : List (String × JValue)) (hnd : (params.map Prod.fst).Nodup) :
    (∀ k v, (k, v) ∈ params →
      hashGet? (DChatCompletions.packageParams history params) k = some v) ∧
    ("messages" ∉ params.map Prod.fst →
      hashGet? (DChatCompletions.packageParams history params) "messages" =
        some (JValue.jarr (history.map fun chat =>
          JValue.jobj [("role", JValue.jstr chat.role),
                       ("content", JValue.jstr chat.content)]))) ∧
    (∀ k, k ∉ params.map Prod.fst → k ≠ "messages" →
      hashGet? (DChatCompletions.packageParams history params) k = none) := by
  refine ⟨?_, ?_, ?_⟩
  · intro k v hmem
    exact hashGet?_foldl_mem params _ k v hnd hmem
  · intro hnotin
    show hashGet? (params.foldl (fun acc kv => hashInsert acc kv.1 kv.2) _) "messages" = _
    rw [hashGet?_foldl_not_mem params _ "messages" hnotin]
    rfl
  · intro k hnotin hne
    show hashGet? (params.foldl (fun acc kv => hashInsert acc kv.1 kv.2) _) k = none
    rw [hashGet?_foldl_not_mem params _ k hnotin,
      hashGet?_hashInsert_ne [] "messages" k _ hne]
    rfl

/-- C7 witness: the packaging properties evaluated on a concrete history and
a concrete parameter map containing a nested structure. -/
theorem c7_package_params_spec_witness :
    hashGet? (DChatCompletions.packageParams [⟨"user", "hi"⟩]
        [("model", JValue.jstr "m"), ("opts", JValue.jobj [("temp", JValue.jnum 1)])])
      "model" = some (JValue.jstr "m") ∧
    hashGet? (DChatCompletions.packageParams [⟨"user", "hi"⟩]
        [("model", JValue.jstr "m"), ("opts", JValue.jobj [("temp", JValue.jnum 1)])])
      "messages"
      = some (JValue.jarr [JValue.jobj [("role", JValue.jstr "user"),
                                        ("content", JValue.jstr "hi")]]) := by
  have h := c7_package_params_spec [⟨"user", "hi"⟩]
      [("model", JValue.jstr "m"), ("opts", JValue.jobj [("temp", JValue.jnum 1)])]
      (by decide)
  exact ⟨h.1 "model" (JValue.jstr "m") (List.mem_cons_self _ _),
         (h.2.1 (by decide)).trans rfl⟩

/-- C8: when the remote start-stream call returns an empty identifier, both
start-stream operations return false, set a daemon-unavailable error, clear
the running flag and store no stream identifier; when it returns a non-empty
identifier, the identifier is stored, the running flag stays set and the
operation returns true. -/
theorem c8_start_stream_empty_id_failure
    (stT : DTextToSpeech.State) (stS : DSpeechToText.State) (env : SessionEnv)
    (text sid : String)
    (hT : stT.running = false) (hS : stS.running = false)
    (hE : (ensureServer env).1 = true) :
    DTextToSpeech.startStreamSynthesis stT env text "" =
      ({ stT with
          running := false,
          error := ⟨APIServerNotAvailable, "Failed to start stream synthesis"⟩ },
       false) ∧
    DSpeechToText.startStreamRecognition stS env "" =
      ({ stS with
          running := false,
          error := ⟨APIServerNotAvailable, "Failed to start stream recognition"⟩ },
       false) ∧
    (sid ≠ "" →
      DTextToSpeech.startStreamSynthesis stT env text sid =
        ({ stT with running := true, streamId := sid }, true)) ∧
    (sid ≠ "" →
      DSpeechToText.startStreamRecognition stS env sid =
        ({ stS with running := true, streamId := sid }, true)) := by
  refine ⟨?_, ?_, fun h => ?_, fun h => ?_⟩
  · simp [DTextToSpeech.startStreamSynthesis, hT, hE]
  · simp [DSpeechToText.startStreamRecognition, hS, hE]
  · simp [DTextToSpeech.startStreamSynthesis, hT, hE, h]
  · simp [DSpeechToText.startStreamRecognition, hS, hE, h]

/-- C8 witness: the start-stream failure and success behavior evaluated at a
concrete idle state and environment. -/
theorem c8_start_stream_empty_id_failure_witness :
    DTextToSpeech.startStreamSynthesis ⟨false, ⟨0, ""⟩, ""⟩ ⟨true, true, "x"⟩ "t" "" =
      (⟨false, ⟨APIServerNotAvailable, "Failed to start stream synthesis"⟩, ""⟩, false) ∧
    DSpeechToText.startStreamRecognition ⟨false, ⟨0, ""⟩, ""⟩ ⟨true, true, "x"⟩ "sid7" =
      (⟨true, ⟨0, ""⟩, "sid7"⟩, true) := by
  have h := c8_start_stream_empty_id_failure ⟨false, ⟨0, ""⟩, ""⟩ ⟨false, ⟨0, ""⟩, ""⟩
      ⟨true, true, "x"⟩ "t" "sid7" rfl rfl rfl
  exact ⟨h.1, (h.2.2.2 (by decide)).trans rfl⟩

end DtkAi
